import Mathlib

/-!
Verification of the self-healing module-repair subsystem of the
luxuryvista backend (src/backend/app/apis/...).

The Python source is shallowly embedded: module contents are `String`s,
the filesystem is a map from module names to optional contents, and the
native `compile`-based syntax validator (whose behaviour the repairers
only observe through a pass/fail bit, an "unterminated string literal"
flag, an error line number and an error message) is abstracted as a
`Checker` record of total functions, so every theorem quantifies over
all possible validator behaviours.  Each embedded definition carries a
doc comment naming the Python symbol it translates.
-/

/-- Abstraction of the native parser as observed by the repairers:
`valid` is `is_syntax_valid` (the `compile` pass/fail bit), `unterminated`
is whether the syntax error message contains `unterminated string literal`,
`errLine` is the 1-based line number extracted from the error (none when
the `line (\d+)` regex finds nothing), and `errMsg` the error text.
The model assumes every compile failure is a `SyntaxError` (the only kind
the source handles); all fields are total functions, so the validator is
deterministic, as the spec requires. -/
structure Checker where
  valid : String → Bool
  unterminated : String → Bool
  errLine : String → Option Nat
  errMsg : String → String

/-- The filesystem seen by the repairers: `mods` is the discovery order of
module directories that contain an `__init__.py` (the list built by
`APIS_DIR.iterdir()`), and `read m` is the content of module `m`'s entry
file, `none` when the file is missing or reading it raises `IOError`. -/
structure FS where
  mods : List String
  read : String → Option String

/-- Whole-file write of module `m`'s entry file. -/
def FS.write (fs : FS) (m : String) (content : String) : FS :=
  { fs with read := fun k => if k = m then some content else fs.read k }

/-- One per-module report entry ({module, status, message, fixes}). -/
structure ModResult where
  module : String
  status : String
  message : String
  fixes : List String

/-- Python `str.count` for a nonempty needle: non-overlapping occurrences,
scanning left to right; the fuel argument is the remaining scan length. -/
def pyCountAux (needle : List Char) : Nat → List Char → Nat
  | 0, _ => 0
  | _, [] => 0
  | fuel + 1, c :: rest =>
    if needle.isPrefixOf (c :: rest) then
      1 + pyCountAux needle fuel (List.drop (needle.length - 1) rest)
    else
      pyCountAux needle fuel rest

/-- Python `hay.count(needle)`. -/
def pyCount (needle hay : String) : Nat :=
  pyCountAux needle.data hay.data.length hay.data

/-- Helper for `splitLines`: accumulates the current line reversed. -/
def splitLinesAux : List Char → List Char → List String
  | [], acc => [String.mk acc.reverse]
  | c :: rest, acc =>
    if c = '\n' then String.mk acc.reverse :: splitLinesAux rest []
    else splitLinesAux rest (c :: acc)

/-- Python `s.split('\n')` (always a nonempty list; `"".split` is `[""]`). -/
def splitLines (s : String) : List String :=
  splitLinesAux s.data []

/-- Python `'\n'.join(lines)`. -/
def joinLines : List String → String
  | [] => ""
  | [l] => l
  | l :: ls => l ++ "\n" ++ joinLines ls

/-- api_consistency.fix_unterminated_string (api_consistency/__init__.py
lines 89-131): counts the four quote kinds on the blamed line (raw counts,
no triple-quote adjustment, no escape handling) and appends a closing
sequence chosen by the chain single-if-double-even, double-if-single-even,
triple-single, triple-double; otherwise probes the validator with a quote
appended to the line and then to the whole file. -/
def acFixUnterminatedString (c : Checker) (code : String) (lineNumber : Nat) : String :=
  let lines := splitLines code
  if lineNumber = 0 ∨ lines.length < lineNumber then code
  else
    let idx := lineNumber - 1
    let line := lines.getD idx ""
    let sq := pyCount "'" line
    let dq := pyCount "\"" line
    let ts := pyCount "'''" line
    let td := pyCount "\"\"\"" line
    if sq % 2 = 1 ∧ dq % 2 = 0 then joinLines (lines.set idx (line ++ "'"))
    else if dq % 2 = 1 ∧ sq % 2 = 0 then joinLines (lines.set idx (line ++ "\""))
    else if ts % 2 = 1 then joinLines (lines.set idx (line ++ "'''"))
    else if td % 2 = 1 then joinLines (lines.set idx (line ++ "\"\"\""))
    else
      let t1 := joinLines (lines.set idx (line ++ "'"))
      if c.valid t1 then t1
      else
        let t2 := joinLines (lines.set idx (line ++ "\""))
        if c.valid t2 then t2
        else if c.valid (code ++ "'") then code ++ "'"
        else if c.valid (code ++ "\"") then code ++ "\""
        else joinLines lines

/-- The repair loop of api_consistency.fix_module_syntax (lines 149-173):
up to `fuel` (10) iterations; each iteration stops when the content is
valid, otherwise handles the single issue `detect_issues` reports
(an `unterminated_string` issue is repaired via
`acFixUnterminatedString`, any other syntax error only logs a message),
and breaks early as soon as the content becomes valid. -/
def acFixIter (c : Checker) : Nat → String → List String → String × List String
  | 0, content, fixes => (content, fixes)
  | fuel + 1, content, fixes =>
    if c.valid content then (content, fixes)
    else
      let line := (c.errLine content).getD 0
      let step :=
        if c.unterminated content then
          let f := acFixUnterminatedString c content line
          if f ≠ content then
            (f, fixes ++ ["Fixed unterminated string at line " ++ toString line])
          else
            (content, fixes ++ ["Couldn't fix unterminated string at line " ++ toString line])
        else
          (content, fixes ++ ["Couldn't fix syntax error: " ++ c.errMsg content])
      if c.valid step.1 then step else acFixIter c fuel step.1 step.2

/-- api_consistency.fix_module_syntax (lines 133-208): read the module,
run the repair loop, and persist only when the final content is valid and
differs from the original ("fixed"); report "no_issues" when valid and
unchanged, "unfixable" when still invalid (no write), "error" when the
file is missing or unreadable. -/
def acFixModule (c : Checker) (fs : FS) (m : String) : ModResult × FS :=
  match fs.read m with
  | none => ({ module := m, status := "error", message := "Module not found", fixes := [] }, fs)
  | some content =>
    let r := acFixIter c 10 content []
    if c.valid r.1 then
      if r.1 ≠ content then
        ({ module := m, status := "fixed",
           message := "Fixed " ++ toString r.2.length ++ " issues", fixes := r.2 },
         fs.write m r.1)
      else
        ({ module := m, status := "no_issues", message := "No syntax issues found", fixes := [] }, fs)
    else
      ({ module := m, status := "unfixable",
         message := "Could not fix all syntax issues automatically", fixes := r.2 }, fs)

/-- The modules api_consistency.fix_all_modules_syntax skips
"to avoid self-modification issues" (line 220). -/
def acSkipList : List String :=
  ["api_consistency", "string_fixer", "enhanced_string_fixer", "api_fixer"]

/-- The loop of api_consistency.fix_all_modules_syntax (lines 218-231):
per non-skipped module one `acFixModule` call, threading the filesystem,
collecting one report entry and bumping exactly one of the three counters
(fixed / no_issues / everything else). Returns
(results, fixed, no_issues, errors, final filesystem). -/
def acFixAllGo (c : Checker) : List String → FS → List ModResult × Nat × Nat × Nat × FS
  | [], fs => ([], 0, 0, 0, fs)
  | m :: rest, fs =>
    if m ∈ acSkipList then acFixAllGo c rest fs
    else
      let p := acFixModule c fs m
      let t := acFixAllGo c rest p.2
      if p.1.status = "fixed" then (p.1 :: t.1, t.2.1 + 1, t.2.2.1, t.2.2.2.1, t.2.2.2.2)
      else if p.1.status = "no_issues" then (p.1 :: t.1, t.2.1, t.2.2.1 + 1, t.2.2.2.1, t.2.2.2.2)
      else (p.1 :: t.1, t.2.1, t.2.2.1, t.2.2.2.1 + 1, t.2.2.2.2)

/-- The aggregate FixResponse of fix_all_modules_syntax (lines 233-239):
total_modules counts every discovered module, the skipped ones included. -/
structure BatchReport where
  results : List ModResult
  total_modules : Nat
  fixed_modules : Nat
  modules_without_issues : Nat
  modules_with_errors : Nat

/-- api_consistency.fix_all_modules_syntax (lines 210-239). -/
def acFixAllModules (c : Checker) (fs : FS) : BatchReport × FS :=
  let t := acFixAllGo c fs.mods fs
  ({ results := t.1, total_modules := fs.mods.length, fixed_modules := t.2.1,
     modules_without_issues := t.2.2.1, modules_with_errors := t.2.2.2.1 }, t.2.2.2.2)

/-- string_fixer.detect_unterminated_string (string_fixer/__init__.py
lines 27-43): the blamed line when the content is invalid, the error
says "unterminated string literal" and a line number is extractable. -/
def sfDetectUnterminated (c : Checker) (code : String) : Option Nat :=
  if c.valid code then none
  else if c.unterminated code then c.errLine code
  else none

/-- string_fixer.fix_unterminated_string (lines 45-65): appends a single
or double quote to the blamed line when that kind's count is odd and the
other kind's count is even; otherwise rebuilds the content unchanged. -/
def sfFixUnterminatedString (content : String) (lineNumber : Nat) : String :=
  let lines := splitLines content
  if lineNumber = 0 ∨ lines.length < lineNumber then content
  else
    let idx := lineNumber - 1
    let line := lines.getD idx ""
    let sq := pyCount "'" line
    let dq := pyCount "\"" line
    if sq % 2 = 1 ∧ dq % 2 = 0 then joinLines (lines.set idx (line ++ "'"))
    else if dq % 2 = 1 ∧ sq % 2 = 0 then joinLines (lines.set idx (line ++ "\""))
    else joinLines lines

/-- The repair loop of string_fixer.fix_module_string_literals (lines
83-116): up to `fuel` (5) iterations; stops when valid or when no
unterminated-string error is reported; when the line-local fix makes no
change it escalates to appending a quote at end of file, and gives up
("Couldn't fix line n") when neither append validates. -/
def sfFixIter (c : Checker) : Nat → String → List String → String × List String
  | 0, content, fixes => (content, fixes)
  | fuel + 1, content, fixes =>
    if c.valid content then (content, fixes)
    else
      match sfDetectUnterminated c content with
      | none => (content, fixes)
      | some line =>
        let f := sfFixUnterminatedString content line
        if f ≠ content then
          sfFixIter c fuel f (fixes ++ ["Fixed unterminated string at line " ++ toString line])
        else if line ≤ (splitLines content).length then
          if c.valid (content ++ "'") then
            sfFixIter c fuel (content ++ "'") (fixes ++ ["Added single quote at end of file"])
          else if c.valid (content ++ "\"") then
            sfFixIter c fuel (content ++ "\"") (fixes ++ ["Added double quote at end of file"])
          else (content, fixes ++ ["Couldn't fix line " ++ toString line])
        else sfFixIter c fuel content fixes

/-- string_fixer.fix_module_string_literals (lines 67-151): same
persist-only-when-valid-and-changed shape as acFixModule, with the
string_fixer loop and a 5-iteration budget. -/
def sfFixModule (c : Checker) (fs : FS) (m : String) : ModResult × FS :=
  match fs.read m with
  | none => ({ module := m, status := "error", message := "Module not found", fixes := [] }, fs)
  | some content =>
    let r := sfFixIter c 5 content []
    if c.valid r.1 then
      if r.1 ≠ content then
        ({ module := m, status := "fixed",
           message := "Fixed " ++ toString r.2.length ++ " string literals", fixes := r.2 },
         fs.write m r.1)
      else
        ({ module := m, status := "no_issues", message := "No string literal issues found", fixes := [] }, fs)
    else
      ({ module := m, status := "unfixable",
         message := "Could not fix all string literals automatically", fixes := r.2 }, fs)

/-- The loop of string_fixer.fix_all_modules (lines 161-174): skips only
the "string_fixer" module itself. -/
def sfFixAllGo (c : Checker) : List String → FS → List ModResult × Nat × Nat × Nat × FS
  | [], fs => ([], 0, 0, 0, fs)
  | m :: rest, fs =>
    if m = "string_fixer" then sfFixAllGo c rest fs
    else
      let p := sfFixModule c fs m
      let t := sfFixAllGo c rest p.2
      if p.1.status = "fixed" then (p.1 :: t.1, t.2.1 + 1, t.2.2.1, t.2.2.2.1, t.2.2.2.2)
      else if p.1.status = "no_issues" then (p.1 :: t.1, t.2.1, t.2.2.1 + 1, t.2.2.2.1, t.2.2.2.2)
      else (p.1 :: t.1, t.2.1, t.2.2.1, t.2.2.2.1 + 1, t.2.2.2.2)

/-- string_fixer.fix_all_modules (lines 153-182). -/
def sfFixAllModules (c : Checker) (fs : FS) : BatchReport × FS :=
  let t := sfFixAllGo c fs.mods fs
  ({ results := t.1, total_modules := fs.mods.length, fixed_modules := t.2.1,
     modules_without_issues := t.2.2.1, modules_with_errors := t.2.2.2.1 }, t.2.2.2.2)

/-- The quote kind the fix_module heuristic picks for the blamed line
(fix_module/__init__.py lines 58-104): the first four constructors are the
four if-branches, the guess constructors the final best-guess fallback. -/
inductive QuoteKind
  | single
  | double
  | tripleSingle
  | tripleDouble
  | guessSingle
  | guessDouble
deriving DecidableEq

/-- The quote-balance analysis of fix_module.fix_string_literals (lines
58-104): raw counts of the four kinds, triple counts subtracted times 3
from the corresponding single-character count, then the first odd count
in the order single, double, triple-single, triple-double wins, with no
condition on the other kind's parity; when no count is odd, a best guess
comparing the raw counts. -/
def fmQuoteChoice (line : String) : QuoteKind :=
  let sq : Int := (pyCount "'" line : Int) - 3 * (pyCount "'''" line : Int)
  let dq : Int := (pyCount "\"" line : Int) - 3 * (pyCount "\"\"\"" line : Int)
  let ts := pyCount "'''" line
  let td := pyCount "\"\"\"" line
  if sq % 2 = 1 then .single
  else if dq % 2 = 1 then .double
  else if ts % 2 = 1 then .tripleSingle
  else if td % 2 = 1 then .tripleDouble
  else if pyCount "\"" line < pyCount "'" line then .guessSingle
  else .guessDouble

/-- The selection rule as the spec states it (spec sections 4.2 and the C5
sources): exactly one most-likely-unbalanced kind by the priority
triple-double, triple-single, double, single, where double or single is
selected only if the other kind's count is even; quote counts adjust the
single-character counts by triple occurrences times 3 (escape handling is
irrelevant for lines without backslashes and is omitted here). `none`
when no kind qualifies. -/
def specQuoteChoice (line : String) : Option QuoteKind :=
  let ts := pyCount "'''" line
  let td := pyCount "\"\"\"" line
  let sq : Int := (pyCount "'" line : Int) - 3 * (ts : Int)
  let dq : Int := (pyCount "\"" line : Int) - 3 * (td : Int)
  if td % 2 = 1 then some .tripleDouble
  else if ts % 2 = 1 then some .tripleSingle
  else if dq % 2 = 1 ∧ sq % 2 = 0 then some .double
  else if sq % 2 = 1 ∧ dq % 2 = 0 then some .single
  else none

/-- Python `suffix in s` restricted to suffix tests: `line.endswith(q)`. -/
def strEndsWith (s suffix : String) : Bool :=
  suffix.data.isSuffixOf s.data

/-- Python `list.insert(n, x)` (clamping at the end like `take`/`drop`). -/
def insertAt (xs : List String) (n : Nat) (x : String) : List String :=
  xs.take n ++ x :: xs.drop n

/-- The per-line repair of fix_module.fix_string_literals (lines 68-107):
the branch chosen by `fmQuoteChoice`; single and double append one quote
to the blamed line, the triple branches either complete a partial triple
quote at the end of the line (the source computes `3 - 1 = 2` missing
quotes whenever the line ends with at least one quote of the kind) or
insert a closing triple-quote line after the blamed line, and the guess
branches append one quote. Returns (new line list, fix descriptions). -/
def fmApplyQuoteFix (lines : List String) (errorLine : Nat) : List String × List String :=
  let idx := errorLine - 1
  let line := lines.getD idx ""
  match fmQuoteChoice line with
  | .single =>
    (lines.set idx (line ++ "'"), ["Fixed single quote at line " ++ toString errorLine])
  | .double =>
    (lines.set idx (line ++ "\""), ["Fixed double quote at line " ++ toString errorLine])
  | .tripleSingle =>
    if strEndsWith line "''" || strEndsWith line "'" then
      let missing := 3 - (if strEndsWith line "'" then 1 else 2)
      (lines.set idx (line ++ String.mk (List.replicate missing (Char.ofNat 39))),
       ["Fixed triple single quote at line " ++ toString errorLine])
    else
      (insertAt lines errorLine "'''",
       ["Added closing triple single quote after line " ++ toString errorLine])
  | .tripleDouble =>
    if strEndsWith line "\"\"" || strEndsWith line "\"" then
      let missing := 3 - (if strEndsWith line "\"" then 1 else 2)
      (lines.set idx (line ++ String.mk (List.replicate missing (Char.ofNat 34))),
       ["Fixed triple double quote at line " ++ toString errorLine])
    else
      (insertAt lines errorLine "\"\"\"",
       ["Added closing triple double quote after line " ++ toString errorLine])
  | .guessSingle =>
    (lines.set idx (line ++ "'"), ["Fixed single quote at line " ++ toString errorLine ++ " (best guess)"])
  | .guessDouble =>
    (lines.set idx (line ++ "\""), ["Fixed double quote at line " ++ toString errorLine ++ " (best guess)"])

/-- fix_module.fix_string_literals (fix_module/__init__.py lines 14-134):
valid modules answer "ok"; non-string-literal syntax errors and
out-of-range blamed lines answer "error"; otherwise the single-line fix is
applied and persisted only when the result re-validates ("fixed"), else
"unfixable" with no write. A missing file answers a bare error dict with
no status key, modelled as status "". -/
def fmFixStringLiterals (c : Checker) (fs : FS) (m : String) : ModResult × FS :=
  match fs.read m with
  | none => ({ module := m, status := "", message := "Module not found: " ++ m, fixes := [] }, fs)
  | some content =>
    if c.valid content then
      ({ module := m, status := "ok", message := "Module already has valid syntax", fixes := [] }, fs)
    else if !(c.unterminated content) then
      ({ module := m, status := "error",
         message := "Module has non-string-literal syntax error: " ++ c.errMsg content, fixes := [] }, fs)
    else
      let errorLine := (c.errLine content).getD 0
      let lines := splitLines content
      if errorLine = 0 ∨ lines.length < errorLine then
        ({ module := m, status := "error", message := "Invalid error line: " ++ toString errorLine, fixes := [] }, fs)
      else
        let p := fmApplyQuoteFix lines errorLine
        let newContent := joinLines p.1
        if c.valid newContent then
          ({ module := m, status := "fixed", message := "Successfully fixed string literals", fixes := p.2 },
           fs.write m newContent)
        else
          ({ module := m, status := "unfixable",
             message := "Could not fix all string literals automatically", fixes := p.2 }, fs)

/-- The loop of fix_module.fix_all_modules (lines 154-176): a module whose
read raises gets an "error" entry and processing continues; a module that
already compiles, or whose syntax error is not an unterminated string
literal, is skipped with NO report entry; only the remaining modules are
handed to fix_string_literals and reported. -/
def fmFixAllGo (c : Checker) : List String → FS → List ModResult × FS
  | [], fs => ([], fs)
  | m :: rest, fs =>
    match fs.read m with
    | none =>
      let t := fmFixAllGo c rest fs
      ({ module := m, status := "error", message := "read failed", fixes := [] } :: t.1, t.2)
    | some content =>
      if c.valid content then fmFixAllGo c rest fs
      else if !(c.unterminated content) then fmFixAllGo c rest fs
      else
        let p := fmFixStringLiterals c fs m
        let t := fmFixAllGo c rest p.2
        (p.1 :: t.1, t.2)

/-- The aggregate report of fix_module.fix_all_modules (lines 178-189). -/
structure FmReport where
  total_processed : Nat
  fixed : Nat
  unfixable : Nat
  errors : Nat
  results : List ModResult

/-- fix_module.fix_all_modules (lines 136-191). -/
def fmFixAllModules (c : Checker) (fs : FS) : FmReport × FS :=
  let t := fmFixAllGo c fs.mods fs
  ({ total_processed := t.1.length,
     fixed := (t.1.filter (fun r => r.status = "fixed")).length,
     unfixable := (t.1.filter (fun r => r.status = "unfixable")).length,
     errors := (t.1.filter (fun r => r.status = "error")).length,
     results := t.1 }, t.2)

/-- module_checker.check_module (module_checker/__init__.py lines 50-89):
"error" when the entry file is missing, otherwise "valid" or "invalid"
according to whether the dynamic import succeeds; the import outcome is
abstracted as the function `imp`. -/
def mcCheckModule (imp : String → Bool) (fs : FS) (m : String) : ModResult :=
  match fs.read m with
  | none => { module := m, status := "error", message := "Module not found", fixes := [] }
  | some _ =>
    if imp m then { module := m, status := "valid", message := "Module imports successfully", fixes := [] }
    else { module := m, status := "invalid", message := "Import failed", fixes := [] }

/-- The loop of module_checker.check_all_modules (lines 98-109): skips the
"module_checker" module itself; "valid" bumps the valid counter, any other
status (invalid or error) the invalid counter. -/
def mcCheckAllGo (imp : String → Bool) (fs : FS) : List String → List ModResult × Nat × Nat
  | [] => ([], 0, 0)
  | m :: rest =>
    if m = "module_checker" then mcCheckAllGo imp fs rest
    else
      let r := mcCheckModule imp fs m
      let t := mcCheckAllGo imp fs rest
      if r.status = "valid" then (r :: t.1, t.2.1 + 1, t.2.2)
      else (r :: t.1, t.2.1, t.2.2 + 1)

/-- The aggregate CheckResponse of module_checker.check_all_modules. -/
structure McReport where
  modules : List ModResult
  total : Nat
  valid : Nat
  invalid : Nat

/-- module_checker.check_all_modules (lines 91-116): total counts every
discovered module, module_checker itself included; the counters and the
result list cover only the non-skipped ones. -/
def mcCheckAllModules (imp : String → Bool) (fs : FS) : McReport :=
  let t := mcCheckAllGo imp fs fs.mods
  { modules := t.1, total := fs.mods.length, valid := t.2.1, invalid := t.2.2 }

/-- Whether `needle` occurs as a contiguous sublist of `hay` (Python
`needle in hay` for nonempty needles). -/
def containsSubAux (needle : List Char) : List Char → Bool
  | [] => needle.isPrefixOf []
  | c :: rest => needle.isPrefixOf (c :: rest) || containsSubAux needle rest

/-- Python `needle in hay` on strings. -/
def strContains (hay needle : String) : Bool :=
  containsSubAux needle.data hay.data

/-- Python regex `\s`: the characters the `re` module treats as whitespace. -/
def isPyWS (c : Char) : Bool :=
  c = ' ' || c = '\t' || c = '\n' || c = '\r' || c = '\x0b' || c = '\x0c'

/-- Drop leading regex whitespace (the `\s*` pieces of the router pattern). -/
def skipWS : List Char → List Char
  | [] => []
  | c :: rest => if isPyWS c then skipWS rest else c :: rest

/-- Whether the regex `router\s*=\s*APIRouter\(` matches at the head of `s`. -/
def routerDefAt (s : List Char) : Bool :=
  if "router".data.isPrefixOf s then
    match skipWS (s.drop 6) with
    | '=' :: s2 => "APIRouter(".data.isPrefixOf (skipWS s2)
    | _ => false
  else false

/-- Python `re.search(r'router\s*=\s*APIRouter\(', content)`: a match at
some position. -/
def hasRouterDef : List Char → Bool
  | [] => false
  | c :: rest => routerDefAt (c :: rest) || hasRouterDef rest

/-- Length of the match of `(?:import|from).*?(?:\n|$)` starting at the
head of `s`: up to and including the first newline, or all of `s` when it
has none (`.` does not cross newlines and the lazy tail stops at the
first `\n` or at end of input). -/
def matchLenFrom : List Char → Nat
  | [] => 0
  | c :: rest => if c = '\n' then 1 else 1 + matchLenFrom rest

/-- `re.finditer(r'((?:import|from).*?(?:\n|$))', content)` reduced to the
end position of the last match: scan left to right, a match starts at any
occurrence of "import" or "from" (no word boundary in the pattern) and
runs to just past the next newline; scanning resumes after each match.
The fuel argument is the remaining scan length. -/
def importScanAux : Nat → List Char → Nat → Option Nat → Option Nat
  | 0, _, _, last => last
  | fuel + 1, s, pos, last =>
    match s with
    | [] => last
    | c :: rest =>
      if "import".data.isPrefixOf (c :: rest) || "from".data.isPrefixOf (c :: rest) then
        let len := matchLenFrom (c :: rest)
        importScanAux fuel (List.drop (len - 1) rest) (pos + len) (some (pos + len))
      else importScanAux fuel rest (pos + 1) last

/-- End position of the last import-line regex match, `none` when the
pattern never matches (`if imports:` false in the source). -/
def lastImportEnd (s : List Char) : Option Nat :=
  importScanAux s.length s 0 none

/-- `content[:pos] + ins + content[pos:]`. -/
def insertAtPos (s : List Char) (pos : Nat) (ins : List Char) : List Char :=
  s.take pos ++ ins ++ s.drop pos

/-- The greedy capture `([^\n]*)`: everything up to the next newline. -/
def takeToNL : List Char → List Char
  | [] => []
  | c :: rest => if c = '\n' then [] else c :: takeToNL rest

/-- The rest of the input from the next newline on (the scan resume point
after a `from fastapi import ([^\n]*)` match, whose capture stops before
the newline). -/
def dropToNL : List Char → List Char
  | [] => []
  | c :: rest => if c = '\n' then c :: rest else dropToNL rest

/-- `re.sub(r'from fastapi import ([^\n]*)', r'from fastapi import \1, APIRouter', content)`
(api_fixer/__init__.py lines 321-325): every occurrence of the literal
"from fastapi import " followed by the rest of the line gets ", APIRouter"
appended to the line. The fuel argument is the remaining scan length. -/
def subFastapiImportAux : Nat → List Char → List Char
  | 0, s => s
  | fuel + 1, s =>
    match s with
    | [] => []
    | c :: rest =>
      if "from fastapi import ".data.isPrefixOf (c :: rest) then
        let afterLit := List.drop ("from fastapi import ".length - 1) rest
        "from fastapi import ".data ++ takeToNL afterLit ++ ", APIRouter".data
          ++ subFastapiImportAux fuel (dropToNL afterLit)
      else c :: subFastapiImportAux fuel rest

/-- The whole-content substitution used by fix 1 of fix_module_router. -/
def subFastapiImport (s : List Char) : List Char :=
  subFastapiImportAux s.length s

/-- api_fixer.fix_router_definition (api_fixer/__init__.py lines 189-202):
only when the content has no "router =" but does contain "@router.", a
fastapi import plus `router = APIRouter()` block is inserted after the
last import line; in every other case, also when the content has no
line with an import at all, the content is returned unchanged. -/
def fixRouterDefinition (content : String) : String :=
  if !(strContains content "router =") && strContains content "@router." then
    match lastImportEnd content.data with
    | some insertPos =>
      String.mk (insertAtPos content.data insertPos
        "\n\nfrom fastapi import APIRouter\n\nrouter = APIRouter()\n".data)
    | none => content
  else content

/-- Outcome of APIRouterFixer.fix_module_router on one module content. -/
structure RouterFix where
  newContent : String
  fixes : List String
  hadImport : Bool
  hadDef : Bool

/-- The content transformation of APIRouterFixer.fix_module_router
(api_fixer/__init__.py lines 288-387): records whether "APIRouter" occurs
and whether a `router = APIRouter(` definition matches, then (fix 1) when
the import is missing merges ", APIRouter" into an existing
`from fastapi import` line, or inserts a fresh import after the last
one, or prepends it when no import line exists at all; (fix 2)
when the definition is missing inserts a `router = APIRouter()` block
after the last import line of the (possibly already extended) content, or
appends it at the end when the only import is the fastapi one. The caller
persists the result exactly when `fixes` is nonempty. Note there is no
check for "@router." route decorators anywhere. -/
def afFixModuleRouter (content : String) : RouterFix :=
  let hadImport := strContains content "APIRouter"
  let hadDef := hasRouterDef content.data
  let step1 :=
    if !hadImport then
      match lastImportEnd content.data with
      | some insertPos =>
        if strContains content "from fastapi import" then
          (String.mk (subFastapiImport content.data), ["Added APIRouter import"])
        else
          (String.mk (insertAtPos content.data insertPos
             "\nfrom fastapi import APIRouter, HTTPException\n".data),
           ["Added APIRouter import"])
      | none =>
        ("from fastapi import APIRouter, HTTPException\n\n" ++ content,
         ["Added APIRouter import at beginning"])
    else (content, [])
  let step2 :=
    if !hadDef then
      match lastImportEnd step1.1.data with
      | some insertPos =>
        (String.mk (insertAtPos step1.1.data insertPos
           "\n\n# Create API router\nrouter = APIRouter()\n\n".data),
         step1.2 ++ ["Added router definition"])
      | none =>
        if strContains step1.1 "from fastapi import APIRouter" then
          (step1.1 ++ "\n\n# Create API router\nrouter = APIRouter()\n\n",
           step1.2 ++ ["Added router definition at end"])
        else (step1.1, step1.2)
    else step1
  { newContent := step2.1, fixes := step2.2, hadImport := hadImport, hadDef := hadDef }

/-- One route decorator site as the operation-id tooling sees it: the
explicit `operation_id` keyword when present, and the decorated function's
name (api_fixer/__init__.py lines 642-652 extract exactly these two from
the text with regexes; operation_id_fixer/__init__.py lines 138-170 with
the ast module). -/
structure Route where
  opId : Option String
  fn : String
deriving DecidableEq

/-- The effective operation ID FastAPI uses: the explicit one, else the
function name (operation_id_fixer/__init__.py lines 181-187). -/
def effId (r : Route) : String :=
  r.opId.getD r.fn

/-- The per-decorator step of api_fixer.fix_operation_ids (lines 642-652):
a decorator without `operation_id=` gets `operation_id="<function name>"`
injected; a decorator that already has one is left alone. -/
def oiFixRoute (r : Route) : Route :=
  match r.opId with
  | none => { r with opId := some r.fn }
  | some _ => r

/-- api_fixer.fix_operation_ids over one module's decorators. -/
def oiFixModule (rs : List Route) : List Route :=
  rs.map oiFixRoute

/-- api_fixer.fix_operation_ids (lines 619-673) over the whole module
tree, abstracted to the decorator level: each module's routes are fixed
independently; no cross-module bookkeeping of used IDs exists. -/
def oiScanAll (tree : List (String × List Route)) : List (String × List Route) :=
  tree.map (fun p => (p.1, oiFixModule p.2))

/-- All effective operation IDs of the tree, in file order. -/
def allEffIds (tree : List (String × List Route)) : List String :=
  (tree.map (fun p => p.2.map effId)).flatten

/-- A concrete validator for which the fixable example of spec section 8
behaves as described: it accepts exactly the repaired one-line module. -/
def exChecker : Checker :=
  { valid := fun s => s = "x = 'abc'",
    unterminated := fun _ => true,
    errLine := fun _ => some 1,
    errMsg := fun _ => "unterminated string literal (detected at line 1)" }

/-- One module "m" whose entry file is the unterminated line of the spec
section 8 example. -/
def exFS : FS :=
  { mods := ["m"], read := fun k => if k = "m" then some "x = 'abc" else none }

/-- A validator that rejects everything with a non-string-literal syntax
error: the repairers can never make progress against it. -/
def cNever : Checker :=
  { valid := fun _ => false, unterminated := fun _ => false,
    errLine := fun _ => none, errMsg := fun _ => "invalid syntax" }

/-- One module "m" with a broken def line no string fix can repair. -/
def exFS2 : FS :=
  { mods := ["m"], read := fun k => if k = "m" then some "def f(:" else none }

/-- A validator that accepts everything. -/
def cAll : Checker :=
  { valid := fun _ => true, unterminated := fun _ => false,
    errLine := fun _ => none, errMsg := fun _ => "" }

/-- Five modules, four readable and syntactically valid, module "m3"
unreadable (its read raises IOError). -/
def exFS9 : FS :=
  { mods := ["m1", "m2", "m3", "m4", "m5"],
    read := fun k =>
      if k = "m3" then none
      else if k = "m1" ∨ k = "m2" ∨ k = "m4" ∨ k = "m5" then some "x = 1"
      else none }

/-- Two modules, each with one route decorator on a function named "foo"
and no explicit operation ID (the files `@router.get("/a")` over
`def foo` and `@router.post("/b")` over `def foo`). -/
def oiExTree : List (String × List Route) :=
  [("alpha", [{ opId := none, fn := "foo" }]),
   ("beta", [{ opId := none, fn := "foo" }])]

/-- Reading back the module just written. -/
theorem FS.read_write_self (fs : FS) (m v : String) : (fs.write m v).read m = some v := by
  simp [FS.write]

/-- Writing module `m` does not change any other module's content. -/
theorem FS.read_write_other (fs : FS) (m v k : String) (h : k ≠ m) :
    (fs.write m v).read k = fs.read k := by
  simp [FS.write, h]

/-- The api_consistency repair loop is the identity on valid content. -/
theorem acFixIter_of_valid (c : Checker) (content : String) (h : c.valid content = true) :
    ∀ n fixes, acFixIter c n content fixes = (content, fixes)
  | 0, _ => rfl
  | n + 1, fixes => by simp [acFixIter, h]

/-- The string_fixer repair loop is the identity on valid content. -/
theorem sfFixIter_of_valid (c : Checker) (content : String) (h : c.valid content = true) :
    ∀ n fixes, sfFixIter c n content fixes = (content, fixes)
  | 0, _ => rfl
  | n + 1, fixes => by simp [sfFixIter, h]

/-- C1: for every module M, whenever the string-literal repair operation
(api_consistency.fix_module_syntax or string_fixer.fix_module_string_literals)
returns status "fixed", the module text it persisted is syntactically
valid: the content now on disk satisfies the validator. -/
theorem c1_fixed_implies_valid (c : Checker) (fs : FS) (m : String) :
    ((acFixModule c fs m).1.status = "fixed" →
      ∃ content, ((acFixModule c fs m).2).read m = some content ∧ c.valid content = true) ∧
    ((sfFixModule c fs m).1.status = "fixed" →
      ∃ content, ((sfFixModule c fs m).2).read m = some content ∧ c.valid content = true) := by
  constructor
  · intro h
    cases hr : fs.read m with
    | none => simp [acFixModule, hr] at h
    | some content =>
      by_cases hv : c.valid (acFixIter c 10 content []).1
      · by_cases heq : (acFixIter c 10 content []).1 = content
        · have hvc : c.valid content = true := heq ▸ hv
          simp [acFixModule, hr, hv, heq, hvc] at h
        · refine ⟨(acFixIter c 10 content []).1, ?_, hv⟩
          simp [acFixModule, hr, hv, heq, FS.read_write_self]
      · simp [acFixModule, hr, hv] at h
  · intro h
    cases hr : fs.read m with
    | none => simp [sfFixModule, hr] at h
    | some content =>
      by_cases hv : c.valid (sfFixIter c 5 content []).1
      · by_cases heq : (sfFixIter c 5 content []).1 = content
        · have hvc : c.valid content = true := heq ▸ hv
          simp [sfFixModule, hr, hv, heq, hvc] at h
        · refine ⟨(sfFixIter c 5 content []).1, ?_, hv⟩
          simp [sfFixModule, hr, hv, heq, FS.read_write_self]
      · simp [sfFixModule, hr, hv] at h

/-- Witness for C1: on the concrete unterminated one-line module, both
repairers report "fixed" and the persisted text validates. -/
theorem c1_witness :
    (∃ content, ((acFixModule exChecker exFS "m").2).read "m" = some content
      ∧ exChecker.valid content = true) ∧
    (∃ content, ((sfFixModule exChecker exFS "m").2).read "m" = some content
      ∧ exChecker.valid content = true) :=
  ⟨(c1_fixed_implies_valid exChecker exFS "m").1 (by decide),
   (c1_fixed_implies_valid exChecker exFS "m").2 (by decide)⟩

/-- C3: for every module whose source is already syntactically valid, both
repair operations report "no_issues" and leave the filesystem exactly as
it was (no write occurs). -/
theorem c3_non_regression (c : Checker) (fs : FS) (m content : String)
    (hread : fs.read m = some content) (hvalid : c.valid content = true) :
    (acFixModule c fs m).1.status = "no_issues" ∧ (acFixModule c fs m).2 = fs ∧
    (sfFixModule c fs m).1.status = "no_issues" ∧ (sfFixModule c fs m).2 = fs := by
  simp [acFixModule, sfFixModule, hread, hvalid,
    acFixIter_of_valid c content hvalid, sfFixIter_of_valid c content hvalid]

/-- Witness for C3: a concrete valid module is reported "no_issues" and
the filesystem is untouched by both repairers. -/
theorem c3_witness :
    (acFixModule cAll exFS9 "m1").1.status = "no_issues" ∧ (acFixModule cAll exFS9 "m1").2 = exFS9 ∧
    (sfFixModule cAll exFS9 "m1").1.status = "no_issues" ∧ (sfFixModule cAll exFS9 "m1").2 = exFS9 :=
  c3_non_regression cAll exFS9 "m1" "x = 1" (by decide) (by decide)

/-- C4: for every module, when the repair loop exhausts its iteration
budget (10 for api_consistency, 5 for string_fixer) without reaching
valid syntax, the repairer returns status "unfixable" and the original
file on disk is left untouched: no still-broken intermediate state is
persisted. -/
theorem c4_unfixable_untouched (c : Checker) (fs : FS) (m content : String)
    (hread : fs.read m = some content)
    (hfail : c.valid ((acFixIter c 10 content []).1) = false)
    (hfail2 : c.valid ((sfFixIter c 5 content []).1) = false) :
    (acFixModule c fs m).1.status = "unfixable" ∧ (acFixModule c fs m).2 = fs ∧
    (sfFixModule c fs m).1.status = "unfixable" ∧ (sfFixModule c fs m).2 = fs := by
  simp [acFixModule, sfFixModule, hread, hfail, hfail2]

/-- Witness for C4: a concrete module with a non-string-literal syntax
error exhausts both loops, is reported "unfixable" and stays untouched. -/
theorem c4_witness :
    (acFixModule cNever exFS2 "m").1.status = "unfixable" ∧ (acFixModule cNever exFS2 "m").2 = exFS2 ∧
    (sfFixModule cNever exFS2 "m").1.status = "unfixable" ∧ (sfFixModule cNever exFS2 "m").2 = exFS2 :=
  c4_unfixable_untouched cNever exFS2 "m" "def f(:" (by decide) (by decide) (by decide)

/-- Second-run behaviour of api_consistency.fix_module_syntax: the second
run never writes, a first run that reported "fixed" or "no_issues" makes
the second report "no_issues", and a first "unfixable" stays "unfixable". -/
theorem acFixModule_second (c : Checker) (fs : FS) (m : String) :
    (acFixModule c ((acFixModule c fs m).2) m).2 = (acFixModule c fs m).2
    ∧ ((acFixModule c fs m).1.status = "fixed" ∨ (acFixModule c fs m).1.status = "no_issues" →
        (acFixModule c ((acFixModule c fs m).2) m).1.status = "no_issues")
    ∧ ((acFixModule c fs m).1.status = "unfixable" →
        (acFixModule c ((acFixModule c fs m).2) m).1.status = "unfixable") := by
  cases hr : fs.read m with
  | none => simp [acFixModule, hr]
  | some content =>
    by_cases hv : c.valid (acFixIter c 10 content []).1
    · by_cases heq : (acFixIter c 10 content []).1 = content
      · have hvc : c.valid content = true := heq ▸ hv
        simp [acFixModule, hr, hvc, acFixIter_of_valid c content hvc]
      · have h2 : (fs.write m (acFixIter c 10 content []).1).read m
            = some (acFixIter c 10 content []).1 := FS.read_write_self fs m _
        simp [acFixModule, hr, hv, heq, h2, acFixIter_of_valid c _ hv]
    · simp [acFixModule, hr, hv]

/-- Second-run behaviour of string_fixer.fix_module_string_literals,
mirror of `acFixModule_second`. -/
theorem sfFixModule_second (c : Checker) (fs : FS) (m : String) :
    (sfFixModule c ((sfFixModule c fs m).2) m).2 = (sfFixModule c fs m).2
    ∧ ((sfFixModule c fs m).1.status = "fixed" ∨ (sfFixModule c fs m).1.status = "no_issues" →
        (sfFixModule c ((sfFixModule c fs m).2) m).1.status = "no_issues")
    ∧ ((sfFixModule c fs m).1.status = "unfixable" →
        (sfFixModule c ((sfFixModule c fs m).2) m).1.status = "unfixable") := by
  cases hr : fs.read m with
  | none => simp [sfFixModule, hr]
  | some content =>
    by_cases hv : c.valid (sfFixIter c 5 content []).1
    · by_cases heq : (sfFixIter c 5 content []).1 = content
      · have hvc : c.valid content = true := heq ▸ hv
        simp [sfFixModule, hr, hvc, sfFixIter_of_valid c content hvc]
      · have h2 : (fs.write m (sfFixIter c 5 content []).1).read m
            = some (sfFixIter c 5 content []).1 := FS.read_write_self fs m _
        simp [sfFixModule, hr, hv, heq, h2, sfFixIter_of_valid c _ hv]
    · simp [sfFixModule, hr, hv]

/-- C2 (as amended): repair is idempotent on the file contents — for every
module the second run of either repairer changes nothing on disk — and
the second run reports "no_issues" exactly for modules whose first run
reported "fixed" or "no_issues"; a module first reported "unfixable" is
reported "unfixable" again, not "no_issues". -/
theorem c2_second_run (c : Checker) (fs : FS) (m : String) :
    ((acFixModule c ((acFixModule c fs m).2) m).2 = (acFixModule c fs m).2
      ∧ ((acFixModule c fs m).1.status = "fixed" ∨ (acFixModule c fs m).1.status = "no_issues" →
          (acFixModule c ((acFixModule c fs m).2) m).1.status = "no_issues")
      ∧ ((acFixModule c fs m).1.status = "unfixable" →
          (acFixModule c ((acFixModule c fs m).2) m).1.status = "unfixable"))
    ∧
    ((sfFixModule c ((sfFixModule c fs m).2) m).2 = (sfFixModule c fs m).2
      ∧ ((sfFixModule c fs m).1.status = "fixed" ∨ (sfFixModule c fs m).1.status = "no_issues" →
          (sfFixModule c ((sfFixModule c fs m).2) m).1.status = "no_issues")
      ∧ ((sfFixModule c fs m).1.status = "unfixable" →
          (sfFixModule c ((sfFixModule c fs m).2) m).1.status = "unfixable")) :=
  ⟨acFixModule_second c fs m, sfFixModule_second c fs m⟩

/-- Witness for C2: on the concrete fixable module the first run reports
"fixed" and the second run reports "no_issues" for both repairers. -/
theorem c2_witness :
    (acFixModule exChecker ((acFixModule exChecker exFS "m").2) "m").1.status = "no_issues" ∧
    (sfFixModule exChecker ((sfFixModule exChecker exFS "m").2) "m").1.status = "no_issues" :=
  ⟨(c2_second_run exChecker exFS "m").1.2.1 (Or.inl (by decide)),
   (c2_second_run exChecker exFS "m").2.2.1 (Or.inl (by decide))⟩

/-- C2 counterexample: the claim as stated — the second run reports
"no_issues" for every module — is false: on the concrete module whose
syntax error is not an unterminated string, the first run reports
"unfixable" and the second run again reports "unfixable". -/
theorem c2_counterexample :
    (acFixModule cNever exFS2 "m").1.status = "unfixable" ∧
    (acFixModule cNever ((acFixModule cNever exFS2 "m").2) "m").1.status ≠ "no_issues" := by
  decide

/-- C5 counterexample: the claimed selection priority (triple-double over
triple-single over double over single, with parity conditions) does not
match the code: on the line `x = \"\"\"'` — one triple double quote and one
stray apostrophe — the spec's rule picks the triple double quote, but
fix_module.fix_string_literals picks the single quote (its chain tests
the adjusted single count first). -/
theorem c5_counterexample :
    fmQuoteChoice "x = \"\"\"'" = QuoteKind.single ∧
    specQuoteChoice "x = \"\"\"'" = some QuoteKind.tripleDouble ∧
    QuoteKind.single ≠ QuoteKind.tripleDouble := by
  decide

/-- C5 (as amended): the fix_module analyzer counts the four quote kinds,
subtracts triple-quote counts times 3 from the corresponding single-
character counts, and picks the first odd count in the priority single,
double, triple-single, triple-double, with no condition on the other
kind's parity: whenever the adjusted single count of the blamed line is
odd, a single quote is appended to it — whatever the other counts are.
The api_consistency analyzer uses unadjusted counts with the same
single-first priority, selecting single or double only when the other
kind's count is even. -/
theorem c5_priority (lines : List String) (n : Nat) (c : Checker) (code : String) :
    (((pyCount "'" (lines.getD (n - 1) "") : Int)
        - 3 * (pyCount "'''" (lines.getD (n - 1) "") : Int)) % 2 = 1 →
      fmApplyQuoteFix lines n
        = (lines.set (n - 1) (lines.getD (n - 1) "" ++ "'"),
           ["Fixed single quote at line " ++ toString n])) ∧
    (¬ (n = 0 ∨ (splitLines code).length < n) →
      pyCount "'" ((splitLines code).getD (n - 1) "") % 2 = 1 →
      pyCount "\"" ((splitLines code).getD (n - 1) "") % 2 = 0 →
      acFixUnterminatedString c code n
        = joinLines ((splitLines code).set (n - 1)
            ((splitLines code).getD (n - 1) "" ++ "'"))) := by
  constructor
  · intro h
    simp only [List.getD_eq_getElem?_getD] at h
    simp [fmApplyQuoteFix, fmQuoteChoice, h]
  · intro hb h1 h2
    simp only [List.getD_eq_getElem?_getD] at h1 h2
    simp [acFixUnterminatedString, hb, h1, h2]

/-- Witness for C5: on the concrete line `x = \"\"\"'` the fix_module
repairer appends a single quote, and on the spec section 8 line
`x = 'abc` the api_consistency repairer appends the single quote. -/
theorem c5_witness :
    fmApplyQuoteFix ["x = \"\"\"'"] 1
      = (["x = \"\"\"'"].set 0 (["x = \"\"\"'"].getD 0 "" ++ "'"),
         ["Fixed single quote at line " ++ toString 1]) ∧
    acFixUnterminatedString cAll "x = 'abc" 1
      = joinLines ((splitLines "x = 'abc").set 0
          ((splitLines "x = 'abc").getD 0 "" ++ "'")) :=
  ⟨(c5_priority ["x = \"\"\"'"] 1 cAll "x = 'abc").1 (by decide),
   (c5_priority ["x = \"\"\"'"] 1 cAll "x = 'abc").2 (by decide) (by decide) (by decide)⟩

/-- The fixed route keeps its effective operation ID. -/
theorem effId_oiFixRoute (r : Route) : effId (oiFixRoute r) = effId r := by
  cases h : r.opId <;> simp [oiFixRoute, effId, h]

/-- C6 counterexample: the claim — after a full-tree operation-id-fixer
scan no two route decorators share the same effective operation ID — is
false on the concrete two-module tree where both modules decorate a
function named "foo" without an explicit ID: after the scan both
decorators carry operation_id "foo". -/
theorem c6_counterexample :
    ¬ (allEffIds (oiScanAll oiExTree)).Nodup := by
  decide

/-- C6 (as amended): the api_fixer operation-id scan gives every route
decorator an explicit operation ID and preserves each decorator's
effective operation ID (the function name where none was set); it does
not deduplicate, so effective IDs that already collided across files
still collide after the scan. -/
theorem c6_scan_preserves (tree : List (String × List Route)) :
    allEffIds (oiScanAll tree) = allEffIds tree ∧
    ((oiScanAll tree).all (fun p => p.2.all (fun r => r.opId.isSome))) = true := by
  constructor
  · simp [allEffIds, oiScanAll, oiFixModule, List.map_map, Function.comp_def, effId_oiFixRoute]
  · simp only [oiScanAll, oiFixModule, List.all_eq_true, List.mem_map]
    rintro p ⟨q, _, rfl⟩ r hr
    simp only [List.mem_map] at hr
    obtain ⟨r0, _, rfl⟩ := hr
    cases h : r0.opId <;> simp [oiFixRoute, h]

/-- C7 counterexample: the claim — the router repair operation never
modifies a module source with no `@router.` call sites — is false for
APIRouterFixer.fix_module_router: on the decorator-free content `x = 1`
it records fixes (so the caller persists) and changes the content,
prepending a fastapi import and appending a router definition. -/
theorem c7_counterexample :
    strContains "x = 1" "@router." = false ∧
    (afFixModuleRouter "x = 1").fixes ≠ [] ∧
    (afFixModuleRouter "x = 1").newContent ≠ "x = 1" := by
  decide

/-- C7 (as amended): api_fixer.fix_router_definition leaves every module
source without `@router.` call sites unchanged; the claim fails only for
APIRouterFixer.fix_module_router, which inserts the missing import and
router definition regardless of route decorators. -/
theorem c7_no_decorators_unchanged (content : String)
    (h : strContains content "@router." = false) :
    fixRouterDefinition content = content := by
  simp [fixRouterDefinition, h]

/-- Witness for C7: fix_router_definition leaves the decorator-free
content `x = 1` unchanged. -/
theorem c7_witness : fixRouterDefinition "x = 1" = "x = 1" :=
  c7_no_decorators_unchanged "x = 1" (by decide)

/-- fix_module_syntax only ever writes module `m`'s own file. -/
theorem acFixModule_read_other (c : Checker) (fs : FS) (m k : String) (h : k ≠ m) :
    ((acFixModule c fs m).2).read k = fs.read k := by
  cases hr : fs.read m with
  | none => simp [acFixModule, hr]
  | some content =>
    simp only [acFixModule, hr]
    split
    · split
      · exact FS.read_write_other fs m _ k h
      · rfl
    · rfl

/-- fix_module_string_literals only ever writes module `m`'s own file. -/
theorem sfFixModule_read_other (c : Checker) (fs : FS) (m k : String) (h : k ≠ m) :
    ((sfFixModule c fs m).2).read k = fs.read k := by
  cases hr : fs.read m with
  | none => simp [sfFixModule, hr]
  | some content =>
    simp only [sfFixModule, hr]
    split
    · split
      · exact FS.read_write_other fs m _ k h
      · rfl
    · rfl

/-- The api_consistency batch never writes a skip-listed module's file. -/
theorem acFixAllGo_read_skip (c : Checker) (ms : List String) (fs : FS) (k : String)
    (hk : k ∈ acSkipList) :
    (acFixAllGo c ms fs).2.2.2.2.read k = fs.read k := by
  induction ms generalizing fs with
  | nil => rfl
  | cons m rest ih =>
    by_cases hm : m ∈ acSkipList
    · simp [acFixAllGo, hm, ih]
    · have hne : k ≠ m := by
        intro he
        rw [he] at hk
        exact hm hk
      simp only [acFixAllGo, if_neg hm]
      split
      · dsimp only
        rw [ih]
        exact acFixModule_read_other c fs m k hne
      · split
        · dsimp only
          rw [ih]
          exact acFixModule_read_other c fs m k hne
        · dsimp only
          rw [ih]
          exact acFixModule_read_other c fs m k hne

/-- The string_fixer batch never writes the string_fixer module's file. -/
theorem sfFixAllGo_read_self (c : Checker) (ms : List String) (fs : FS) :
    (sfFixAllGo c ms fs).2.2.2.2.read "string_fixer" = fs.read "string_fixer" := by
  induction ms generalizing fs with
  | nil => rfl
  | cons m rest ih =>
    by_cases hm : m = "string_fixer"
    · simp [sfFixAllGo, hm, ih]
    · have hne : "string_fixer" ≠ m := fun he => hm he.symm
      simp only [sfFixAllGo, hm, if_false]
      split
      · rw [ih]
        exact sfFixModule_read_other c fs m _ hne
      · split
        · rw [ih]
          exact sfFixModule_read_other c fs m _ hne
        · rw [ih]
          exact sfFixModule_read_other c fs m _ hne

/-- C8: for every state of the module tree and every validator behaviour,
the batch fix-all operations never write to their own module file —
api_consistency.fix_all_modules_syntax leaves "api_consistency" untouched
and string_fixer.fix_all_modules leaves "string_fixer" untouched, even
when those files are broken. -/
theorem c8_self_exclusion (c : Checker) (fs : FS) :
    ((acFixAllModules c fs).2).read "api_consistency" = fs.read "api_consistency" ∧
    ((sfFixAllModules c fs).2).read "string_fixer" = fs.read "string_fixer" := by
  constructor
  · simpa [acFixAllModules] using acFixAllGo_read_skip c fs.mods fs "api_consistency" (by simp [acSkipList])
  · simpa [sfFixAllModules] using sfFixAllGo_read_self c fs.mods fs

/-- Every report entry of fix_module_syntax names the module it is about. -/
theorem acFixModule_module (c : Checker) (fs : FS) (m : String) :
    (acFixModule c fs m).1.module = m := by
  cases hr : fs.read m with
  | none => simp [acFixModule, hr]
  | some content =>
    simp only [acFixModule, hr]
    split
    · split <;> rfl
    · rfl

/-- The api_consistency batch produces exactly one report entry per
non-skip-listed module, in scan order, whatever each module's status. -/
theorem acFixAllGo_results_map (c : Checker) (ms : List String) (fs : FS) :
    (acFixAllGo c ms fs).1.map (fun r => r.module)
      = ms.filter (fun m => decide (m ∉ acSkipList)) := by
  induction ms generalizing fs with
  | nil => rfl
  | cons m rest ih =>
    by_cases hm : m ∈ acSkipList
    · simp [acFixAllGo, List.filter_cons, hm, ih]
    · simp only [acFixAllGo, if_neg hm]
      rw [List.filter_cons]
      simp only [hm, decide_not, decide_eq_true_eq, not_false_eq_true, Bool.not_false, if_true]
      split
      · simp [acFixModule_module, ih]
      · split
        · simp [acFixModule_module, ih]
        · simp [acFixModule_module, ih]

/-- C9 (as amended): an unreadable module is captured as its own "error"
report entry with the filesystem untouched, and the api_consistency batch
continues past it — its report contains exactly one entry per
non-skip-listed module. (The claim as stated fails for
fix_module.fix_all_modules, which reports no entry at all for modules
that already compile; see the counterexample.) -/
theorem c9_batch_resilience (c : Checker) (fs : FS) :
    (acFixAllModules c fs).1.results.map (fun r => r.module)
      = fs.mods.filter (fun m => decide (m ∉ acSkipList)) ∧
    (∀ m, fs.read m = none →
      (acFixModule c fs m).1.status = "error" ∧ (acFixModule c fs m).2 = fs) := by
  constructor
  · simpa [acFixAllModules] using acFixAllGo_results_map c fs.mods fs
  · intro m hm
    simp [acFixModule, hm]

/-- Witness for C9: on the concrete five-module tree with "m3" unreadable
the batch report has one entry for every module, and "m3" alone is the
"error" entry while the filesystem is untouched. -/
theorem c9_witness :
    (acFixAllModules cAll exFS9).1.results.map (fun r => r.module)
      = exFS9.mods.filter (fun m => decide (m ∉ acSkipList)) ∧
    (acFixModule cAll exFS9 "m3").1.status = "error" ∧
    (acFixModule cAll exFS9 "m3").2 = exFS9 :=
  ⟨(c9_batch_resilience cAll exFS9).1, (c9_batch_resilience cAll exFS9).2 "m3" (by decide)⟩

/-- C9 counterexample: the claim — the batch report contains one entry per
module, five entries for a five-module set with one IO error — is false
for fix_module.fix_all_modules: on the concrete five-module tree where
module "m3" is unreadable and the other four already compile, the report
contains a single entry (the "m3" error), not five. -/
theorem c9_counterexample :
    exFS9.mods.length = 5 ∧
    (fmFixAllModules cAll exFS9).1.results.length = 1 ∧
    (fmFixAllModules cAll exFS9).1.results.map (fun r => r.status) = ["error"] := by
  decide

/-- A list splits into the elements a Boolean predicate keeps and those
it rejects. -/
theorem length_filter_not_add {α : Type} (p : α → Bool) (l : List α) :
    (l.filter p).length + (l.filter (fun a => !(p a))).length = l.length := by
  induction l with
  | nil => rfl
  | cons a t ih =>
    cases h : p a <;> simp [List.filter_cons, h] <;> omega

/-- Each processed module bumps exactly one of the three counters of the
api_consistency batch. -/
theorem acFixAllGo_counts (c : Checker) (ms : List String) (fs : FS) :
    (acFixAllGo c ms fs).2.1 + (acFixAllGo c ms fs).2.2.1 + (acFixAllGo c ms fs).2.2.2.1
      = (ms.filter (fun m => decide (m ∉ acSkipList))).length := by
  induction ms generalizing fs with
  | nil => rfl
  | cons m rest ih =>
    by_cases hm : m ∈ acSkipList
    · simp [acFixAllGo, List.filter_cons, hm, ih]
    · simp only [acFixAllGo, if_neg hm]
      rw [List.filter_cons]
      simp only [hm, decide_not, decide_eq_true_eq, not_false_eq_true, Bool.not_false, if_true]
      split
      · dsimp only
        rw [List.length_cons]
        have h := ih (acFixModule c fs m).2
        simp only [decide_not] at h
        omega
      · split
        · dsimp only
          rw [List.length_cons]
          have h := ih (acFixModule c fs m).2
          simp only [decide_not] at h
          omega
        · dsimp only
          rw [List.length_cons]
          have h := ih (acFixModule c fs m).2
          simp only [decide_not] at h
          omega

/-- Each processed module bumps exactly one of the two counters of the
module_checker scan. -/
theorem mcCheckAllGo_counts (imp : String → Bool) (fs : FS) (ms : List String) :
    (mcCheckAllGo imp fs ms).2.1 + (mcCheckAllGo imp fs ms).2.2
      = (ms.filter (fun m => decide (¬ m = "module_checker"))).length := by
  induction ms with
  | nil => rfl
  | cons m rest ih =>
    by_cases hm : m = "module_checker"
    · simp [mcCheckAllGo, List.filter_cons, hm, ih]
    · simp only [mcCheckAllGo, if_neg hm]
      rw [List.filter_cons]
      simp only [hm, decide_not, decide_eq_true_eq, not_false_eq_true, Bool.not_false, if_true]
      simp only [decide_not] at ih
      split
      · dsimp only
        rw [List.length_cons]
        omega
      · dsimp only
        rw [List.length_cons]
        omega

/-- C10: in every batch report the total count covers all discovered
modules, the self-excluded ones included, while the per-status counters
cover only the processed ones: fixed + no_issues + errors equals the
total minus the number of skip-listed modules present on disk
(api_consistency.fix_all_modules_syntax), and valid + invalid equals the
total minus the number of module_checker entries present on disk
(module_checker.check_all_modules). -/
theorem c10_counts (c : Checker) (imp : String → Bool) (fs : FS) :
    (acFixAllModules c fs).1.fixed_modules + (acFixAllModules c fs).1.modules_without_issues
        + (acFixAllModules c fs).1.modules_with_errors
      = (acFixAllModules c fs).1.total_modules
          - (fs.mods.filter (fun m => decide (m ∈ acSkipList))).length ∧
    (mcCheckAllModules imp fs).valid + (mcCheckAllModules imp fs).invalid
      = (mcCheckAllModules imp fs).total
          - (fs.mods.filter (fun m => decide (m = "module_checker"))).length := by
  constructor
  · have h1 := acFixAllGo_counts c fs.mods fs
    have h2 := length_filter_not_add (fun m => decide (m ∈ acSkipList)) fs.mods
    simp only [decide_not] at h1
    simp only [acFixAllModules]
    omega
  · have h1 := mcCheckAllGo_counts imp fs fs.mods
    have h2 := length_filter_not_add (fun m => decide (m = "module_checker")) fs.mods
    simp only [decide_not] at h1
    simp only [mcCheckAllModules]
    omega
